import Mathlib

set_option maxRecDepth 100000

/-
Verification development for the sharpy runtime network interface
(sharpy/io/network_interface.py).

The Python module defines a base class Network owning one UDP socket, a
client-address registry and a queue, and two subclasses: OutNetwork
(transmits encoded simulation state, push or on-demand) and InNetwork
(accumulates datagrams into a fixed-length record buffer and decodes it).
Readiness dispatch comes from the selectors module: EVENT_READ = 1,
EVENT_WRITE = 2, and process_events receives the ready mask.

The embedding below is a direct translation:
  - bytes are lists of naturals, addresses are (host, port) pairs;
  - socket recvfrom(bufsize) on a UDP socket returns at most bufsize bytes
    of a single datagram (any excess bytes of that datagram are discarded)
    together with the sender address;
  - the Python conditions written `mask and selectors.EVENT_READ` are
    modelled by Python truthiness of the int `and` chain (pyAndInt), NOT by
    bitwise intersection, because that is what the source evaluates;
  - the external Codec (message_interface.decoder / SetOfVariables.encode)
    is an explicit function parameter, consumed and not re-specified;
  - queue.put appends, queue.get pops the front (FIFO queue.Queue);
  - selectors semantics for close: BaseSelector.unregister first maps the
    file object to a descriptor. For an open but unregistered socket the
    key pop fails and the handler re-raises KeyError. For a closed socket
    fileno() is -1, so _fileobj_to_fd raises ValueError, the exhaustive
    search over registered keys finds nothing and re-raises ValueError,
    and the KeyError-only handler in unregister does not catch it.
-/

namespace SharpyNet

/-- Raw bytes of a message, one natural per byte. -/
abbrev Bytes := List Nat

/-- A peer address, the Python (host, port) tuple. -/
abbrev Addr := String × Nat

/-- A UDP datagram: payload bytes plus sender address. -/
abbrev Datagram := Bytes × Addr

/-- selectors.EVENT_READ. -/
def EVENT_READ : Nat := 1

/-- selectors.EVENT_WRITE. -/
def EVENT_WRITE : Nat := 2

/-- Truthiness of a Python int: nonzero. -/
def intTruthy (n : Nat) : Bool := n != 0

/-- Python `a and b` on ints: a when a is falsy, else b. -/
def pyAndInt (a b : Nat) : Nat := if intTruthy a then b else a

/-- UDP sock.recvfrom(bufsize): at most bufsize bytes of the pending
datagram, plus the sender address. -/
def recvfrom (bufsize : Nat) (d : Datagram) : Bytes × Addr :=
  (d.1.take bufsize, d.2)

namespace Network

/-- Network._add_client: append the address to the registry iff it is not
already present. -/
def _add_client (clients : List Addr) (client_addr : Addr) : List Addr :=
  if client_addr ∈ clients then clients else clients ++ [client_addr]

/-- Network.add_client on a list argument: _add_client on each element in
order. -/
def add_client_list (clients : List Addr) (cs : List Addr) : List Addr :=
  cs.foldl _add_client clients

/-- Outcome of Network.receive: retval is the value the Python method
returns (r_msg only; the `return recv_data` variant is commented out in the
source), clients is the updated registry. -/
structure ReceiveResult where
  retval : Bytes
  clients : List Addr
  deriving DecidableEq

/-- Network.receive(msg_length): recvfrom, auto-register the sender address
via add_client, and return r_msg. -/
def receive (clients : List Addr) (msg_length : Nat) (d : Datagram) :
    ReceiveResult :=
  let r := recvfrom msg_length d
  { retval := r.1, clients := _add_client clients r.2 }

/-- Network.send on a list destination: one unicast _sendto per entry, in
order. -/
def send (msg : Bytes) (dest_addr : List Addr) : List (Bytes × Addr) :=
  dest_addr.map (fun dest => (msg, dest))

/-- Errors raised by selectors.BaseSelector.unregister: KeyError when an
open file object is not currently registered, ValueError when the file
object has no valid descriptor (a closed socket has fileno() equal to -1,
so _fileobj_to_fd raises ValueError and the KeyError-only handler in
unregister does not catch it). -/
inductive CloseError where
  | keyError
  | valueError
  deriving DecidableEq

/-- The socket/selector state that Network.close manipulates: whether the
socket is registered with the module-level selector and whether it is open. -/
structure SocketState where
  registered : Bool
  sockOpen : Bool
  deriving DecidableEq

/-- Network.close: sel.unregister(self.sock) then self.sock.close(). A
first close on a registered socket succeeds and leaves the socket both
unregistered and closed. Calling again, unregister fails: with KeyError if
the socket were somehow still open but unregistered, and with ValueError
when the socket is already closed (fileno() is -1), which is exactly the
state a first close leaves behind. -/
def close (s : SocketState) : Except CloseError SocketState :=
  if s.registered then
    Except.ok { registered := false, sockOpen := false }
  else if s.sockOpen then
    Except.error CloseError.keyError
  else
    Except.error CloseError.valueError

end Network

/-- InNetwork state: clients and queue from the Network base, plus
_in_message_length and _recv_buffer. The queue holds decoded records; put
appends at the back. -/
structure InState (α : Type) where
  clients : List Addr
  queue : List α
  in_message_length : Nat
  recv_buffer : Bytes
  deriving DecidableEq

namespace InNetwork

/-- InNetwork.process_events(mask), with the pending datagram d and the
external decoder message_interface.decoder as parameter decode. The guard is
the source condition `if mask and selectors.EVENT_READ`, i.e. truthiness of
the Python int-and chain. On the read path: receive(_in_message_length)
bytes, append to _recv_buffer; when the buffer length equals
_in_message_length, decode, put on the queue and clear the buffer. -/
def process_events {α : Type} (decode : Bytes → α) (s : InState α)
    (mask : Nat) (d : Datagram) : InState α :=
  if intTruthy (pyAndInt mask EVENT_READ) then
    let r := Network.receive s.clients s.in_message_length d
    let s1 : InState α :=
      { s with clients := r.clients, recv_buffer := s.recv_buffer ++ r.retval }
    if s1.recv_buffer.length = s1.in_message_length then
      { s1 with queue := s1.queue ++ [decode s1.recv_buffer], recv_buffer := [] }
    else
      s1
  else s

end InNetwork

/-- OutNetwork state: clients and queue from the Network base, plus the
send_on_demand setting. The queue holds snapshots to encode. -/
structure OutState (β : Type) where
  clients : List Addr
  queue : List β
  send_on_demand : Bool
  deriving DecidableEq

namespace OutNetwork

/-- OutNetwork.process_events(mask), with the pending datagram d and the
SetOfVariables.encode codec as parameter encode. Both guards are the source
truthiness conditions `mask and selectors.EVENT_READ` and
`mask and selectors.EVENT_WRITE and not self.queue.empty()`. The read path
(on-demand only) receives the request datagram — registering its sender —
and the write path pops the queue front, encodes it and sends it to every
registered client. Returns the new state and the list of sent datagrams as
(payload, destination) pairs. -/
def process_events {β : Type} (encode : β → Bytes) (s : OutState β)
    (mask : Nat) (d : Datagram) : OutState β × List (Bytes × Addr) :=
  let s1 :=
    if intTruthy (pyAndInt mask EVENT_READ) then
      if s.send_on_demand then
        { s with clients := (Network.receive s.clients 1024 d).clients }
      else s
    else s
  if intTruthy (pyAndInt mask EVENT_WRITE) && !s1.queue.isEmpty then
    match s1.queue with
    | [] => (s1, [])
    | v :: rest =>
        ({ s1 with queue := rest }, Network.send (encode v) s1.clients)
  else (s1, [])

/-- Configuration errors (the spec's ConfigError kind); the source
initialise never raises one. -/
inductive ConfigError where
  | configError
  deriving DecidableEq

/-- Outcome of OutNetwork.initialise: the resulting client registry and
whether the empty-destination warning was logged. -/
structure OutInit where
  clients : List Addr
  warned : Bool
  deriving DecidableEq

/-- OutNetwork.initialise after the base-class socket bind/register: when
send_on_demand is False and destination_address is empty it only logs a
warning (no exception is raised), then registers
zip(destination_address, destination_ports) via add_client and returns
normally. -/
def initialise (send_on_demand : Bool) (destination_address : List String)
    (destination_ports : List Nat) : Except ConfigError OutInit :=
  let warned := (!send_on_demand) && destination_address.length == 0
  let clients := destination_address.zip destination_ports
  Except.ok { clients := Network.add_client_list [] clients, warned := warned }

end OutNetwork

/-- First-occurrence deduplication, defined independently of the registry
fold: keep the head, drop every later duplicate of it, recurse. -/
def dedupFirstOccur {γ : Type} [DecidableEq γ] : List γ → List γ
  | [] => []
  | x :: xs => x :: dedupFirstOccur (xs.filter (fun y => decide (y ≠ x)))
termination_by l => l.length
decreasing_by
  simp only [List.length_cons]
  exact Nat.lt_succ_of_le (List.length_filter_le _ _)

/-- The buffer contents right after the read path appends the received
bytes: old buffer plus at most _in_message_length bytes of the datagram. -/
def appendedBuf {α : Type} (s : InState α) (d : Datagram) : Bytes :=
  s.recv_buffer ++ d.1.take s.in_message_length

/-- A concrete input-channel state: expected length 100, empty buffer. -/
def inState100 : InState Nat :=
  { clients := [], queue := [], in_message_length := 100, recv_buffer := [] }

/-- A concrete input-channel state: expected length 100, 60 bytes buffered. -/
def inStateBuf60 : InState Nat :=
  { clients := [], queue := [],
    in_message_length := 100, recv_buffer := List.replicate 60 7 }

/-- A concrete input-channel state: expected length 1024, empty buffer. -/
def inState1024 : InState Nat :=
  { clients := [], queue := [], in_message_length := 1024, recv_buffer := [] }

/-- Concrete decoder standing in for message_interface.decoder in runs: the
decoded record is the buffer length. -/
def lenDecode : Bytes → Nat := fun b => b.length

/-- A 60-byte datagram from a fixed peer. -/
def dg60 : Datagram := (List.replicate 60 7, ("peer", 9000))

/-- An 80-byte datagram from a fixed peer. -/
def dg80 : Datagram := (List.replicate 80 7, ("peer", 9000))

/-- A 300-byte datagram from a fixed peer. -/
def dg300 : Datagram := (List.replicate 300 7, ("peer", 9000))

/-- A 424-byte datagram from a fixed peer. -/
def dg424 : Datagram := (List.replicate 424 7, ("peer", 9000))

/-- The state after receiving 60 then 80 bytes with expected length 100. -/
def run6080 : InState Nat :=
  InNetwork.process_events lenDecode
    (InNetwork.process_events lenDecode inState100 EVENT_READ dg60)
    EVENT_READ dg80

/-- The state after receiving two 300-byte datagrams, expected length 1024. -/
def run300300 : InState Nat :=
  InNetwork.process_events lenDecode
    (InNetwork.process_events lenDecode inState1024 EVENT_READ dg300)
    EVENT_READ dg300

/-- Characterisation of the InNetwork read path: when the mask guard is
truthy, the sender is registered and the buffer either completes the frame
(decode, enqueue, clear) or just accumulates. -/
theorem in_process_read {α : Type} (decode : Bytes → α) (s : InState α)
    (mask : Nat) (d : Datagram)
    (hmask : intTruthy (pyAndInt mask EVENT_READ) = true) :
    InNetwork.process_events decode s mask d =
      if (appendedBuf s d).length = s.in_message_length then
        { clients := Network._add_client s.clients d.2,
          queue := s.queue ++ [decode (appendedBuf s d)],
          in_message_length := s.in_message_length,
          recv_buffer := [] }
      else
        { clients := Network._add_client s.clients d.2,
          queue := s.queue,
          in_message_length := s.in_message_length,
          recv_buffer := appendedBuf s d } := by
  simp only [InNetwork.process_events, Network.receive, recvfrom, appendedBuf,
    hmask, if_true]

/-- C1 counterexample: expected length 100, then datagrams of 60 and 80
bytes. The code emits zero records but does not reset the buffer (it keeps
all 140 bytes) and performs no violation handling, so the claimed
resynchronisation with an empty buffer is false. -/
theorem C1_counterexample :
    run6080.queue = [] ∧ ¬ run6080.recv_buffer = [] := by
  decide

/-- C1 (amended): whenever the read path fires and the appended buffer
strictly exceeds the expected length, zero records are emitted for the
frame, and the buffer is not reset: it retains every accumulated byte; the
code has no ProtocolViolation handling. -/
theorem C1_overshoot_keeps_buffer {α : Type} (decode : Bytes → α)
    (s : InState α) (mask : Nat) (d : Datagram)
    (hmask : intTruthy (pyAndInt mask EVENT_READ) = true)
    (hover : s.in_message_length < (appendedBuf s d).length) :
    (InNetwork.process_events decode s mask d).queue = s.queue
    ∧ (InNetwork.process_events decode s mask d).recv_buffer = appendedBuf s d := by
  rw [in_process_read decode s mask d hmask, if_neg (by omega)]
  exact ⟨rfl, rfl⟩

/-- C1 witness: 60 bytes buffered with expected length 100, then an 80-byte
datagram overshoots to 140; no record, buffer kept. -/
theorem C1_overshoot_keeps_buffer_witness :
    intTruthy (pyAndInt EVENT_READ EVENT_READ) = true
    ∧ inStateBuf60.in_message_length < (appendedBuf inStateBuf60 dg80).length
    ∧ ((InNetwork.process_events lenDecode inStateBuf60 EVENT_READ dg80).queue
        = inStateBuf60.queue
      ∧ (InNetwork.process_events lenDecode inStateBuf60 EVENT_READ dg80).recv_buffer
        = appendedBuf inStateBuf60 dg80) :=
  ⟨by decide, by decide,
    C1_overshoot_keeps_buffer lenDecode inStateBuf60 EVENT_READ dg80
      (by decide) (by decide)⟩

/-- C2 counterexample: with 60 bytes buffered and expected length 100, a
READ event still requests 100 bytes (not the remaining 40), so an 80-byte
datagram is appended whole and the buffer reaches 140, exceeding the
expected length, contradicting the claimed invariant. -/
theorem C2_counterexample :
    (InNetwork.process_events lenDecode inStateBuf60 EVENT_READ dg80).recv_buffer.length
        = 140
    ∧ inStateBuf60.in_message_length = 100 := by
  decide

/-- C2 (amended): on every READ event the code requests in_message_length
bytes from the socket regardless of how much is already buffered (the
receive call takes the full expected length of the datagram), so the buffer
can grow beyond the expected length. -/
theorem C2_requests_full_length {α : Type} (decode : Bytes → α)
    (s : InState α) (mask : Nat) (d : Datagram)
    (hmask : intTruthy (pyAndInt mask EVENT_READ) = true) :
    (InNetwork.process_events decode s mask d).recv_buffer
      = (if (appendedBuf s d).length = s.in_message_length then ([] : Bytes)
         else s.recv_buffer ++ d.1.take s.in_message_length) := by
  rw [in_process_read decode s mask d hmask]
  split
  · rfl
  · rfl

/-- C2 witness: empty buffer, expected length 100, a 60-byte datagram is
appended whole (the request size was 100, the full expected length). -/
theorem C2_requests_full_length_witness :
    intTruthy (pyAndInt EVENT_READ EVENT_READ) = true
    ∧ (InNetwork.process_events lenDecode inState100 EVENT_READ dg60).recv_buffer
      = (if (appendedBuf inState100 dg60).length = inState100.in_message_length
         then ([] : Bytes)
         else inState100.recv_buffer ++ dg60.1.take inState100.in_message_length) :=
  ⟨by decide, C2_requests_full_length lenDecode inState100 EVENT_READ dg60 (by decide)⟩

/-- C4: the source guards use Python truthiness of an int-and chain, not a
bitwise intersection. A WRITE-only mask (2), whose bitwise intersection
with EVENT_READ (1) is zero, still executes the InNetwork receive branch
(bytes are appended and the sender is registered); and a READ-only mask (1)
still executes the OutNetwork write branch (a send occurs). The claimed
iff-with-intersection behaviour fails. -/
theorem C4_truthiness_mask_bug :
    Nat.land EVENT_WRITE EVENT_READ = 0
    ∧ (InNetwork.process_events lenDecode inState100 EVENT_WRITE dg60).recv_buffer
        = List.replicate 60 7
    ∧ (InNetwork.process_events lenDecode inState100 EVENT_WRITE dg60).clients
        = [("peer", 9000)]
    ∧ Nat.land EVENT_READ EVENT_WRITE = 0
    ∧ (OutNetwork.process_events (fun n : Nat => [n])
        { clients := [("a", 1)], queue := [5], send_on_demand := false }
        EVENT_READ ([], ("q", 2))).2 = [([5], ("a", 1))] := by
  refine ⟨by decide, by decide, by decide, by decide, by decide⟩

/-- C7: under a truthy READ guard, when the appended buffer length equals
the expected length the buffer is decoded, exactly one record is appended
to the queue and the buffer is cleared; when it differs the queue is
unchanged (the equality path is the only path that yields a record). -/
theorem C7_equality_only_path {α : Type} (decode : Bytes → α)
    (s : InState α) (mask : Nat) (d : Datagram)
    (hmask : intTruthy (pyAndInt mask EVENT_READ) = true) :
    ((appendedBuf s d).length = s.in_message_length →
      (InNetwork.process_events decode s mask d).queue
          = s.queue ++ [decode (appendedBuf s d)]
      ∧ (InNetwork.process_events decode s mask d).recv_buffer = [])
    ∧ ((appendedBuf s d).length ≠ s.in_message_length →
      (InNetwork.process_events decode s mask d).queue = s.queue
      ∧ (InNetwork.process_events decode s mask d).recv_buffer = appendedBuf s d) := by
  rw [in_process_read decode s mask d hmask]
  constructor
  · intro h
    rw [if_pos h]
    exact ⟨rfl, rfl⟩
  · intro h
    rw [if_neg h]
    exact ⟨rfl, rfl⟩

/-- C7 witness: expected length 1024 received as datagrams of 300, 300 and
424 bytes; the third call completes the frame, pushes exactly one decoded
record and leaves the buffer empty. -/
theorem C7_equality_only_path_witness :
    intTruthy (pyAndInt EVENT_READ EVENT_READ) = true
    ∧ (appendedBuf run300300 dg424).length = run300300.in_message_length
    ∧ ((InNetwork.process_events lenDecode run300300 EVENT_READ dg424).queue
        = run300300.queue ++ [lenDecode (appendedBuf run300300 dg424)]
      ∧ (InNetwork.process_events lenDecode run300300 EVENT_READ dg424).recv_buffer
        = []) :=
  ⟨by decide, by decide,
    (C7_equality_only_path lenDecode run300300 EVENT_READ dg424 (by decide)).1
      (by decide)⟩

/-- A concrete on-demand output state with one already-registered client
(a configured destination) and one queued snapshot. -/
def outOnDemand : OutState Nat :=
  { clients := [("10.0.0.2", 8000)], queue := [42], send_on_demand := true }

/-- A request datagram from a client distinct from the registered one. -/
def reqC : Datagram := ([], ("10.0.0.5", 9000))

/-- Concrete encoder standing in for SetOfVariables.encode in runs. -/
def natEncode : Nat → Bytes := fun n => [n]

/-- C3 counterexample: on-demand output with destination ("10.0.0.2", 8000)
already registered and one queued snapshot; a request from
("10.0.0.5", 9000) makes the channel send the encoded snapshot to BOTH
registered addresses, so a datagram goes to an address other than the
requesting sender. -/
theorem C3_counterexample :
    (OutNetwork.process_events natEncode outOnDemand EVENT_READ reqC).2
      = [([42], ("10.0.0.2", 8000)), ([42], ("10.0.0.5", 9000))]
    ∧ (("10.0.0.2", 8000) : Addr) ≠ ("10.0.0.5", 9000) := by
  refine ⟨by decide, by decide⟩

/-- C3 (amended): in on-demand mode a READ-ready event with a nonempty
queue sends the encoded front snapshot to EVERY address in the client
registry — the configured destinations and previously seen requesters as
well as the current requester — not only to the requesting sender. -/
theorem C3_reply_to_all_clients {β : Type} (encode : β → Bytes)
    (s : OutState β) (d : Datagram) (v : β) (rest : List β)
    (hsod : s.send_on_demand = true) (hq : s.queue = v :: rest) :
    (OutNetwork.process_events encode s EVENT_READ d).2
      = Network.send (encode v) (Network._add_client s.clients d.2) := by
  simp only [OutNetwork.process_events, Network.receive, recvfrom, hsod, hq,
    if_true]
  norm_num [intTruthy, pyAndInt, EVENT_READ, EVENT_WRITE]

/-- C3 witness: the concrete on-demand state with one registered
destination and the queued snapshot 42, requested by ("10.0.0.5", 9000). -/
theorem C3_reply_to_all_clients_witness :
    outOnDemand.send_on_demand = true
    ∧ outOnDemand.queue = 42 :: []
    ∧ (OutNetwork.process_events natEncode outOnDemand EVENT_READ reqC).2
        = Network.send (natEncode 42)
            (Network._add_client outOnDemand.clients reqC.2) :=
  ⟨rfl, rfl, C3_reply_to_all_clients natEncode outOnDemand reqC 42 [] rfl rfl⟩

/-- C5: in push mode (send_on_demand False) with an empty destination list,
OutNetwork.initialise merely logs a warning and returns normally — no
configuration error is raised and construction proceeds, against the
claimed (and source-commented) fatal failure. -/
theorem C5_empty_destinations_only_warns :
    OutNetwork.initialise false [] []
      = Except.ok { clients := [], warned := true } := rfl

/-- A socket state right after a successful initialise: registered, open. -/
def boundSocket : Network.SocketState := { registered := true, sockOpen := true }

/-- C6 counterexample: from a bound channel, the first close succeeds and
releases the socket, but the second close raises ValueError — the socket is
already closed, so the selectors descriptor lookup on fileno() -1 fails and
the KeyError-only handler in unregister does not catch it — so a double
close is not a no-op. -/
theorem C6_counterexample :
    Network.close boundSocket
      = Except.ok { registered := false, sockOpen := false }
    ∧ Network.close { registered := false, sockOpen := false }
      = Except.error Network.CloseError.valueError :=
  ⟨rfl, rfl⟩

/-- C6 (amended): for every initialised (registered) channel, the first
close unregisters and releases the socket, and the second close raises
ValueError from the selectors descriptor lookup on the already-closed
socket — close is not idempotent in the code. -/
theorem C6_second_close_raises (s : Network.SocketState)
    (h : s.registered = true) :
    Network.close s = Except.ok { registered := false, sockOpen := false }
    ∧ Network.close { registered := false, sockOpen := false }
      = Except.error Network.CloseError.valueError := by
  constructor
  · simp [Network.close, h]
  · rfl

/-- C6 witness: the concrete bound socket state. -/
theorem C6_second_close_raises_witness :
    boundSocket.registered = true
    ∧ (Network.close boundSocket
        = Except.ok { registered := false, sockOpen := false }
      ∧ Network.close { registered := false, sockOpen := false }
        = Except.error Network.CloseError.valueError) :=
  ⟨rfl, C6_second_close_raises boundSocket rfl⟩

/-- C9 counterexample: two datagrams with identical payload but distinct
senders produce identical return values from Network.receive, so the value
the method returns cannot carry the sender address — the source returns
r_msg only (the address-returning variant is commented out). -/
theorem C9_counterexample :
    (Network.receive [] 10 ([1, 2], ("a", 1))).retval
      = (Network.receive [] 10 ([1, 2], ("b", 2))).retval
    ∧ (("a", 1) : Addr) ≠ ("b", 2) :=
  ⟨rfl, by decide⟩

/-- An element is a member of the registry after _add_client adds it. -/
theorem mem_add_client (clients : List Addr) (a : Addr) :
    a ∈ Network._add_client clients a := by
  unfold Network._add_client
  split
  · assumption
  · simp

/-- C9 (amended): a successful Network.receive(maxBytes) returns only the
raw bytes read — at most maxBytes of them — while the sender address is
auto-registered into the clients registry (but not returned). -/
theorem C9_receive_returns_bytes_only (clients : List Addr) (n : Nat)
    (d : Datagram) :
    (Network.receive clients n d).retval = d.1.take n
    ∧ (Network.receive clients n d).retval.length ≤ n
    ∧ (Network.receive clients n d).clients = Network._add_client clients d.2
    ∧ d.2 ∈ (Network.receive clients n d).clients := by
  refine ⟨rfl, ?_, rfl, ?_⟩
  · simp only [Network.receive, recvfrom, List.length_take]
    omega
  · exact mem_add_client clients d.2

/-- Adding an address that is already registered leaves the registry
unchanged. -/
theorem add_client_idem (clients : List Addr) (a : Addr) (h : a ∈ clients) :
    Network._add_client clients a = clients := by
  simp [Network._add_client, h]

/-- _add_client preserves the no-duplicates property of the registry. -/
theorem add_client_nodup (clients : List Addr) (a : Addr)
    (h : clients.Nodup) : (Network._add_client clients a).Nodup := by
  unfold Network._add_client
  split
  · exact h
  · next hmem =>
      refine List.Nodup.append h (List.nodup_singleton a) ?_
      intro x hx hx1
      simp only [List.mem_singleton] at hx1
      subst hx1
      exact hmem hx

/-- Iterating the receive-from-one-sender registry update any positive
number of times is the same as registering the sender once. -/
theorem receive_iterate_fix (clients : List Addr) (len : Nat)
    (payload : Bytes) (a : Addr) (n : Nat) :
    (fun cs => (Network.receive cs len (payload, a)).clients)^[n + 1] clients
      = Network._add_client clients a := by
  induction n with
  | zero => rfl
  | succ k ih =>
      rw [Function.iterate_succ_apply', ih]
      exact add_client_idem _ _ (mem_add_client clients a)

/-- A duplicate-free list containing an element has exactly one entry equal
to it. -/
theorem countP_eq_one_of_nodup_mem (l : List Addr) (a : Addr)
    (h : l.Nodup) (hm : a ∈ l) :
    l.countP (fun x => decide (x = a)) = 1 := by
  induction l with
  | nil => cases hm
  | cons b t ih =>
      rw [List.countP_cons]
      rcases List.nodup_cons.mp h with ⟨hbt, hnd⟩
      rcases List.mem_cons.mp hm with h1 | h1
      · subst h1
        have hz : t.countP (fun x => decide (x = a)) = 0 := by
          rw [List.countP_eq_zero]
          intro x hx
          simp only [decide_eq_true_eq]
          intro he
          subst he
          exact hbt hx
        simp [hz]
      · have hba : ¬ (b = a) := by
          intro e
          subst e
          exact hbt h1
        rw [ih hnd h1]
        simp [hba]

/-- C8: the registry add is idempotent — a sender address already present
is not added again — and after any positive number of datagrams received
from one source the registry has exactly one entry for that address and
still no duplicates. -/
theorem C8_registry_dedup (clients : List Addr) (a : Addr) (payload : Bytes)
    (len n : Nat) (hnd : clients.Nodup) :
    (a ∈ clients → Network._add_client clients a = clients)
    ∧ ((fun cs => (Network.receive cs len (payload, a)).clients)^[n + 1]
        clients).countP (fun x => decide (x = a)) = 1
    ∧ ((fun cs => (Network.receive cs len (payload, a)).clients)^[n + 1]
        clients).Nodup := by
  refine ⟨add_client_idem clients a, ?_, ?_⟩
  · rw [receive_iterate_fix clients len payload a n]
    exact countP_eq_one_of_nodup_mem _ a (add_client_nodup clients a hnd)
      (mem_add_client clients a)
  · rw [receive_iterate_fix clients len payload a n]
    exact add_client_nodup clients a hnd

/-- C8 witness: three datagrams from the same source into an initially
empty registry leave exactly one entry for that address. -/
theorem C8_registry_dedup_witness :
    ([] : List Addr).Nodup
    ∧ (((("peer", 9000) : Addr) ∈ ([] : List Addr) →
        Network._add_client [] ("peer", 9000) = [])
      ∧ ((fun cs => (Network.receive cs 16 ([1], ("peer", 9000))).clients)^[2 + 1]
          ([] : List Addr)).countP (fun x => decide (x = ("peer", 9000))) = 1
      ∧ ((fun cs => (Network.receive cs 16 ([1], ("peer", 9000))).clients)^[2 + 1]
          ([] : List Addr)).Nodup) :=
  ⟨List.nodup_nil,
    C8_registry_dedup [] ("peer", 9000) [1] 16 2 List.nodup_nil⟩

/-- Folding _add_client over a list from an arbitrary accumulator appends
the first-occurrence deduplication of the not-yet-registered elements. -/
theorem add_client_list_acc (l : List Addr) : ∀ acc : List Addr,
    Network.add_client_list acc l
      = acc ++ dedupFirstOccur (l.filter (fun x => decide (x ∉ acc))) := by
  induction l with
  | nil =>
      intro acc
      simp [Network.add_client_list, dedupFirstOccur]
  | cons x xs ih =>
      intro acc
      by_cases hx : x ∈ acc
      · have hstep : Network._add_client acc x = acc := add_client_idem acc x hx
        have hfilter : (x :: xs).filter (fun y => decide (y ∉ acc))
            = xs.filter (fun y => decide (y ∉ acc)) := by
          rw [List.filter_cons_of_neg]
          simp [hx]
        calc Network.add_client_list acc (x :: xs)
            = Network.add_client_list (Network._add_client acc x) xs := rfl
          _ = Network.add_client_list acc xs := by rw [hstep]
          _ = acc ++ dedupFirstOccur (xs.filter (fun y => decide (y ∉ acc))) :=
              ih acc
          _ = acc ++ dedupFirstOccur ((x :: xs).filter (fun y => decide (y ∉ acc))) := by
              rw [hfilter]
      · have hstep : Network._add_client acc x = acc ++ [x] := by
          simp [Network._add_client, hx]
        have hpt : ∀ y : Addr,
            decide (y ∉ acc ++ [x]) = (decide (y ∉ acc) && decide (y ≠ x)) := by
          intro y
          by_cases h1 : y ∈ acc <;> by_cases h2 : y = x <;>
            simp [h1, h2, List.mem_append]
        have hfilter : xs.filter (fun y => decide (y ∉ acc ++ [x]))
            = (xs.filter (fun y => decide (y ∉ acc))).filter
                (fun y => decide (y ≠ x)) := by
          rw [List.filter_filter]
          exact List.filter_congr (fun a _ => by rw [hpt a, Bool.and_comm])
        have hcons : (x :: xs).filter (fun y => decide (y ∉ acc))
            = x :: xs.filter (fun y => decide (y ∉ acc)) := by
          rw [List.filter_cons_of_pos]
          simp [hx]
        calc Network.add_client_list acc (x :: xs)
            = Network.add_client_list (acc ++ [x]) xs := by
              show Network.add_client_list (Network._add_client acc x) xs = _
              rw [hstep]
          _ = (acc ++ [x]) ++ dedupFirstOccur
                (xs.filter (fun y => decide (y ∉ acc ++ [x]))) := ih (acc ++ [x])
          _ = acc ++ (x :: dedupFirstOccur
                ((xs.filter (fun y => decide (y ∉ acc))).filter
                  (fun y => decide (y ≠ x)))) := by
              rw [hfilter, List.append_assoc]
              rfl
          _ = acc ++ dedupFirstOccur ((x :: xs).filter (fun y => decide (y ∉ acc))) := by
              rw [hcons, dedupFirstOccur]

/-- Registering a list of addresses into an empty registry is exactly
first-occurrence deduplication. -/
theorem add_client_list_dedup (l : List Addr) :
    Network.add_client_list [] l = dedupFirstOccur l := by
  rw [add_client_list_acc l []]
  simp

/-- C10: in both push and on-demand modes, OutNetwork.initialise returns
normally and the resulting client registry is exactly the positional
zip of destination_address and destination_ports, deduplicated keeping the
first occurrence of each pair; a length mismatch between the two lists is
silently truncated to the shorter one by zip. -/
theorem C10_initialise_clients (sod : Bool) (addrs : List String)
    (ports : List Nat) :
    OutNetwork.initialise sod addrs ports
      = Except.ok { clients := dedupFirstOccur (addrs.zip ports),
                    warned := (!sod) && addrs.length == 0 }
    ∧ (addrs.zip ports).length = min addrs.length ports.length := by
  constructor
  · simp only [OutNetwork.initialise]
    rw [add_client_list_dedup]
  · exact List.length_zip addrs ports

end SharpyNet
